import Mathlib

/-!
Shallow embedding of the generative-media orchestration and asset persistence
pipeline of the `python-ai-engine` service:

* `app/services/prompt_service.py` — `PromptRegenerator.quantify` and
  `PromptRegenerator.regenerate_with_feedback`;
* `app/services/video_generation.py` — `VideoPrompt`, the provider adapters,
  `VideoGenerationService._select_provider` and `VideoGenerationService.generate`;
* `app/services/firebase_storage.py` / `app/services/s3_storage.py` —
  `_generate_firebase_path` / `_generate_s3_key` and
  `download_and_store_video`;
* `app/services/creative_service.py` — the prompt/variation parameter
  resolution in `CreativeService._generate_video`.

Effectful collaborators (the language model, the RNG, the HTTP client and the
storage bucket) are passed in explicitly: the language model's reply is a
parameter, the RNG is a stream `Nat → Int` with a cursor that each draw
advances, and network/storage calls are function parameters returning their
observable results.  Python falsiness (`x or y`, `if not x`) is translated
explicitly at each use site.
-/

/-! ## A small model of decoded JSON values

`json.loads` yields Python values; the fields the service reads are null,
booleans, integers, strings and lists of strings, which is what this type
covers.  (Floats never appear in any property checked here.) -/

inductive JsonVal where
  | jnull
  | jbool (b : Bool)
  | jint (n : Int)
  | jstr (s : String)
  | jstrList (l : List String)
  deriving DecidableEq

/-- A decoded JSON object: the association list backing a Python dict
(keys are unique). -/
def Json := List (String × JsonVal)

instance : DecidableEq Json := by
  unfold Json
  infer_instance

/-- `dict.get(k)` — `none` when the key is absent. -/
def jGet (data : Json) (k : String) : Option JsonVal :=
  (data.find? (fun kv => kv.1 = k)).map (fun kv => kv.2)

/-- ASCII lower-casing of one character, as `str.lower` does on the ASCII
range (the only range the "tiktok" keyword checks exercise). -/
def lowerChar (c : Char) : Char :=
  if 65 ≤ c.toNat && c.toNat ≤ 90 then Char.ofNat (c.toNat + 32) else c

/-- `str.lower()` restricted to ASCII case folding. -/
def lowerStr (s : String) : String := ⟨s.data.map lowerChar⟩

def startsWithChars : List Char → List Char → Bool
  | [], _ => true
  | _ :: _, [] => false
  | a :: as, b :: bs => a == b && startsWithChars as bs

def hasSubChars (pat : List Char) : List Char → Bool
  | [] => pat.isEmpty
  | c :: cs => startsWithChars pat (c :: cs) || hasSubChars pat cs

/-- Python substring membership: `pat in s` (equivalently `s.find(pat) >= 0`). -/
def strContains (s pat : String) : Bool := hasSubChars pat.data s.data

def digitVal? (c : Char) : Option Nat :=
  if 48 ≤ c.toNat && c.toNat ≤ 57 then some (c.toNat - 48) else none

def digitsVal? : List Char → Option Nat → Option Nat
  | [], acc => acc
  | c :: cs, acc =>
    match digitVal? c, acc with
    | some d, some n => digitsVal? cs (some (n * 10 + d))
    | some d, none => digitsVal? cs (some d)
    | none, _ => none

/-- `int(s)` on a decimal string literal (optional leading minus);
`none` models the `ValueError` Python raises on anything else. -/
def pyIntOfStr (s : String) : Option Int :=
  match s.data with
  | '-' :: rest => (digitsVal? rest none).map (fun n => -(n : Int))
  | ds => (digitsVal? ds none).map (fun n => (n : Int))

/-- Python `int(v)` on a decoded JSON value: ints pass through, booleans
coerce to 0/1, numeric strings parse, and `None`/lists/other strings raise
(`.error`). -/
def pyInt (v : JsonVal) : Except String Int :=
  match v with
  | .jint n => .ok n
  | .jbool b => .ok (if b then 1 else 0)
  | .jstr s =>
    match pyIntOfStr s with
    | some n => .ok n
    | none => .error "invalid literal for int()"
  | .jnull => .error "int() argument must not be None"
  | .jstrList _ => .error "int() argument must not be a list"

/-- Python `str(v)` on a decoded JSON value. -/
def pyStr (v : JsonVal) : String :=
  match v with
  | .jnull => "None"
  | .jbool b => if b then "True" else "False"
  | .jint n => toString n
  | .jstr s => s
  | .jstrList l => toString l

/-- Python truthiness `bool(v)` of a decoded JSON value. -/
def pyTruthy (v : JsonVal) : Bool :=
  match v with
  | .jnull => false
  | .jbool b => b
  | .jint n => n ≠ 0
  | .jstr s => s ≠ ""
  | .jstrList l => l ≠ []

/-! ## `VideoPrompt` (video_generation.py lines 22-39)

The dataclass with its field defaults.  The optional free-text fields are
kept at their declared `Optional[str]` / `Optional[List[str]]` types. -/

structure VideoPrompt where
  prompt : String
  duration_seconds : Int := 10
  aspect_ratio : String := "16:9"
  resolution : String := "1080p"
  fps : Int := 24
  style : String := "cinematic"
  mood : String := "uplifting"
  camera : String := "smooth dolly-in"
  color_palette : Option String := none
  music : Option String := none
  voiceover_script : Option String := none
  text_overlays : Option (List String) := none
  subtitles : Bool := false
  brand_colors : Option (List String) := none
  seed : Option Int := none
  deriving DecidableEq

/-! ## Field readers used by the quantify/refine merge code

Each mirrors one idiom of `prompt_service.py`. -/

/-- `str(data.get(k, dflt))` where `dflt` is already a string. -/
def getStr (data : Json) (k : String) (dflt : String) : String :=
  match jGet data k with
  | some v => pyStr v
  | none => dflt

/-- `int(data.get(k, dflt))` where `dflt` is already an int; a present
value goes through Python `int(...)`, which can raise. -/
def getInt (data : Json) (k : String) (dflt : Int) : Except String Int :=
  match jGet data k with
  | some v => pyInt v
  | none => .ok dflt

/-- `bool(data.get(k, dflt))` where `dflt` is already a bool. -/
def getBool (data : Json) (k : String) (dflt : Bool) : Bool :=
  match jGet data k with
  | some v => pyTruthy v
  | none => dflt

/-- `data.get(k, dflt)` for the `Optional[str]` fields: a present JSON
string or null is taken as-is, any other present value is rendered with
`str` (the dataclass stores it untyped), an absent key yields `dflt`. -/
def getOptStr (data : Json) (k : String) (dflt : Option String) : Option String :=
  match jGet data k with
  | some .jnull => none
  | some (.jstr s) => some s
  | some v => some (pyStr v)
  | none => dflt

/-- `data.get(k, dflt)` for the `Optional[List[str]]` fields: a present
list of strings or null is taken as-is, an absent key yields `dflt`
(other value shapes are collapsed to null — no checked property reads
them). -/
def getOptStrList (data : Json) (k : String) (dflt : Option (List String)) :
    Option (List String) :=
  match jGet data k with
  | some (.jstrList l) => some l
  | some _ => none
  | none => dflt

/-! ## `PromptRegenerator` (prompt_service.py) -/

/-- The heuristic branch of `quantify` (lines 92-118), taken when no LLM is
configured: keyword-driven defaults derived from `str(campaign_context)`. -/
def heuristicQuantify (user_prompt : String) (campaignCtx : String) : VideoPrompt :=
  { prompt := user_prompt
    duration_seconds := 10
    aspect_ratio :=
      if strContains (lowerStr campaignCtx) "tiktok" then "9:16" else "16:9"
    resolution := "1080p"
    fps := 24
    style :=
      if strContains (lowerStr campaignCtx) "tiktok" then "dynamic social-first"
      else "cinematic"
    mood := "uplifting"
    camera :=
      if strContains (lowerStr campaignCtx) "tiktok" then "handheld energy"
      else "smooth dolly-in"
    subtitles := true }

/-- Building the `VideoPrompt` from a parsed LLM reply in `quantify`
(lines 138-153): absent keys fall back to the documented defaults; the
`int(...)` coercions on present values can raise. -/
def quantifyFromData (user_prompt : String) (data : Json) :
    Except String VideoPrompt :=
  match getInt data "duration_seconds" 10, getInt data "fps" 24 with
  | .error e, _ => .error e
  | _, .error e => .error e
  | .ok dur, .ok fpsVal =>
    .ok
    { prompt := getStr data "prompt" user_prompt
      duration_seconds := dur
      aspect_ratio := getStr data "aspect_ratio" "16:9"
      resolution := getStr data "resolution" "1080p"
      fps := fpsVal
      style := getStr data "style" "cinematic"
      mood := getStr data "mood" "uplifting"
      camera := getStr data "camera" "smooth dolly-in"
      color_palette := getOptStr data "color_palette" none
      music := getOptStr data "music" none
      voiceover_script := getOptStr data "voiceover_script" none
      text_overlays := getOptStrList data "text_overlays" none
      subtitles := getBool data "subtitles" false
      brand_colors := getOptStrList data "brand_colors" none }

/-- One LLM call's observable outcome: a reply that `json.loads` accepts,
or one it rejects. -/
inductive LLMReply where
  | parsed (data : Json)
  | malformed
  deriving DecidableEq

/-- `PromptRegenerator.quantify` (lines 84-153).  `llmConfigured` is whether
`_init_llm` found an API key; `replies` is the stream of successive LLM
replies (each `malformed` reply makes the code recurse into `quantify`,
issuing a fresh LLM call).  The result is `none` when every modeled reply is
malformed and the code would still be retrying. -/
def quantify (llmConfigured : Bool) (user_prompt : String) (campaignCtx : String)
    (replies : List LLMReply) : Option (Except String VideoPrompt) :=
  if !llmConfigured then
    some (.ok (heuristicQuantify user_prompt campaignCtx))
  else
    match replies with
    | [] => none
    | .malformed :: rest => quantify llmConfigured user_prompt campaignCtx rest
    | .parsed data :: _ => some (quantifyFromData user_prompt data)

/-- The heuristic branch of `regenerate_with_feedback` (lines 158-169):
keyword tweaks to mood and style over a dict-splat copy of the prior
prompt (all other fields, the seed included, are carried over). -/
def regenerateHeuristic (prior : VideoPrompt) (feedback : String) : VideoPrompt :=
  let mood :=
    if strContains (lowerStr feedback) "energy" then "energetic" else prior.mood
  let style :=
    if strContains (lowerStr feedback) "social" then "social-first" else prior.style
  { prior with mood := mood, style := style }

/-- Building the `VideoPrompt` from a parsed LLM refine reply in
`regenerate_with_feedback` (lines 184-203): absent keys fall back to the
*prior* prompt's values.  The constructor call names every schema field but
not `seed`, so the dataclass default `None` applies to the seed. -/
def regenerateFromData (prior : VideoPrompt) (data : Json) :
    Except String VideoPrompt :=
  match getInt data "duration_seconds" prior.duration_seconds,
      getInt data "fps" prior.fps with
  | .error e, _ => .error e
  | _, .error e => .error e
  | .ok dur, .ok fpsVal =>
    .ok
    { prompt := getStr data "prompt" prior.prompt
      duration_seconds := dur
      aspect_ratio := getStr data "aspect_ratio" prior.aspect_ratio
      resolution := getStr data "resolution" prior.resolution
      fps := fpsVal
      style := getStr data "style" prior.style
      mood := getStr data "mood" prior.mood
      camera := getStr data "camera" prior.camera
      color_palette := getOptStr data "color_palette" prior.color_palette
      music := getOptStr data "music" prior.music
      voiceover_script := getOptStr data "voiceover_script" prior.voiceover_script
      text_overlays := getOptStrList data "text_overlays" prior.text_overlays
      subtitles := getBool data "subtitles" prior.subtitles
      brand_colors := getOptStrList data "brand_colors" prior.brand_colors
      seed := none }

/-- `PromptRegenerator.regenerate_with_feedback` (lines 155-203): heuristic
when no LLM is configured; otherwise one LLM call whose malformed reply
makes the function return the prior prompt unchanged. -/
def regenerateWithFeedback (llmConfigured : Bool) (prior : VideoPrompt)
    (feedback : String) (reply : LLMReply) : Except String VideoPrompt :=
  if !llmConfigured then .ok (regenerateHeuristic prior feedback)
  else
    match reply with
    | .parsed data => regenerateFromData prior data
    | .malformed => .ok prior

/-- The prompt parameter resolution in `CreativeService._generate_video`
(creative_service.py lines 332-337): Python `a or b or "Brand hero video ad"`
over the two optional request fields, where `None` and `""` are falsy. -/
def orStr (a : Option String) (b : String) : String :=
  match a with
  | some s => if s = "" then b else s
  | none => b

def resolveUserPrompt (userPromptParam promptParam : Option String) : String :=
  orStr userPromptParam (orStr promptParam "Brand hero video ad")

/-- `variations = int(parameters.get("variations", 1))` in
`CreativeService._generate_video`. -/
def resolveVariations (v : Option Int) : Int := v.getD 1

/-! ## Provider adapters and the orchestrator (video_generation.py) -/

/-- One generation attempt's outcome (`GenerationResult` dataclass,
lines 42-51).  `params` is the echoed effective-parameter dict. -/
structure GenerationResult where
  success : Bool
  content_url : Option String
  firebase_url : Option String
  job_id : Option String
  model : String
  provider : String
  params : Json
  message : String
  deriving DecidableEq

/-- The logical model names (`VideoModel` enum, lines 13-19). -/
inductive VideoModel where
  | runwayGen3
  | pikaV2
  | stabilitySvd
  | lumaDream
  | googleVeo
  | openaiShorts
  deriving DecidableEq

def VideoModel.value : VideoModel → String
  | .runwayGen3 => "runway_gen3"
  | .pikaV2 => "pika_v2"
  | .stabilitySvd => "stability_svd"
  | .lumaDream => "luma_dream"
  | .googleVeo => "google_veo"
  | .openaiShorts => "openai_shorts"

/-- `VideoModel(model)` — Python enum lookup by value; `none` models the
`ValueError` the `except` in `_select_provider` catches. -/
def videoModelOfString (s : String) : Option VideoModel :=
  if s = "runway_gen3" then some .runwayGen3
  else if s = "pika_v2" then some .pikaV2
  else if s = "stability_svd" then some .stabilitySvd
  else if s = "luma_dream" then some .lumaDream
  else if s = "google_veo" then some .googleVeo
  else if s = "openai_shorts" then some .openaiShorts
  else none

/-- The concrete provider adapters (one class each in the source). -/
inductive ProviderId where
  | mock
  | runway
  | pika
  | stability
  | luma
  | googleVeo
  | openai
  deriving DecidableEq

/-- Each provider class's `name` attribute. -/
def providerName : ProviderId → String
  | .mock => "mock"
  | .runway => "runway"
  | .pika => "pika"
  | .stability => "stability"
  | .luma => "luma"
  | .googleVeo => "google_veo"
  | .openai => "openai"

/-- The `self.providers` dict built in `VideoGenerationService.__init__`
(lines 250-257): one adapter per `VideoModel` identity. -/
def providersMap : VideoModel → ProviderId
  | .runwayGen3 => .runway
  | .pikaV2 => .pika
  | .stabilitySvd => .stability
  | .lumaDream => .luma
  | .googleVeo => .googleVeo
  | .openaiShorts => .openai

/-- `VideoGenerationService._select_provider` (lines 266-277): exact enum
value match; any name the enum rejects resolves to the `google_veo`
provider (and the dict lookup default is the same provider). -/
def selectProvider (model : String) : ProviderId :=
  match videoModelOfString model with
  | none => providersMap .googleVeo
  | some vm => providersMap vm

def jsonOfOptStr : Option String → JsonVal
  | none => .jnull
  | some s => .jstr s

def jsonOfOptStrList : Option (List String) → JsonVal
  | none => .jnull
  | some l => .jstrList l

def jsonOfOptInt : Option Int → JsonVal
  | none => .jnull
  | some n => .jint n

/-- `prompt.__dict__`, the params echo used by every non-mock provider. -/
def promptDict (p : VideoPrompt) : Json :=
  [("prompt", .jstr p.prompt),
   ("duration_seconds", .jint p.duration_seconds),
   ("aspect_ratio", .jstr p.aspect_ratio),
   ("resolution", .jstr p.resolution),
   ("fps", .jint p.fps),
   ("style", .jstr p.style),
   ("mood", .jstr p.mood),
   ("camera", .jstr p.camera),
   ("color_palette", jsonOfOptStr p.color_palette),
   ("music", jsonOfOptStr p.music),
   ("voiceover_script", jsonOfOptStr p.voiceover_script),
   ("text_overlays", jsonOfOptStrList p.text_overlays),
   ("subtitles", .jbool p.subtitles),
   ("brand_colors", jsonOfOptStrList p.brand_colors),
   ("seed", jsonOfOptInt p.seed)]

/-- `prompt.seed or random.randint(1, 10_000_000)` — the idiom every
provider uses to resolve its effective seed.  Python `or` takes the
right operand when the seed is `None` *or* `0` (falsy); a draw advances
the RNG cursor. -/
def pyOrSeed (s : Option Int) (rng : Nat → Int) (k : Nat) : Int × Nat :=
  match s with
  | some v => if v = 0 then (rng k, k + 1) else (v, k)
  | none => (rng k, k + 1)

/-- `provider.generate(prompt, assets)` for each concrete adapter
(lines 67-240).  Every adapter fabricates a job id and URL from the
effective seed and reports success; none of them raises. -/
def providerGenerate (pid : ProviderId) (p : VideoPrompt) (rng : Nat → Int)
    (k : Nat) : GenerationResult × Nat :=
  let sk := pyOrSeed p.seed rng k
  match pid with
  | .mock =>
    let vidId := "mock_" ++ toString sk.1
    ({ success := true
       content_url := some ("https://cdn.example.com/generated/videos/" ++ vidId ++ ".mp4")
       firebase_url := none
       job_id := some vidId
       model := "mock"
       provider := "mock"
       params :=
         [("duration", .jint p.duration_seconds),
          ("aspect_ratio", .jstr p.aspect_ratio),
          ("resolution", .jstr p.resolution),
          ("fps", .jint p.fps),
          ("style", .jstr p.style)]
       message := "Mock generation complete" }, sk.2)
  | .runway =>
    let jobId := "runway_" ++ toString sk.1
    ({ success := true
       content_url := some ("https://runway-public.example/" ++ jobId ++ ".mp4")
       firebase_url := none
       job_id := some jobId
       model := "runway_gen3"
       provider := "runway"
       params := promptDict p
       message := "Runway request accepted" }, sk.2)
  | .pika =>
    let jobId := "pika_" ++ toString sk.1
    ({ success := true
       content_url := some ("https://pika-public.example/" ++ jobId ++ ".mp4")
       firebase_url := none
       job_id := some jobId
       model := "pika_v2"
       provider := "pika"
       params := promptDict p
       message := "Pika request accepted" }, sk.2)
  | .stability =>
    let jobId := "svd_" ++ toString sk.1
    ({ success := true
       content_url := some ("https://stability-public.example/" ++ jobId ++ ".mp4")
       firebase_url := none
       job_id := some jobId
       model := "stability_svd"
       provider := "stability"
       params := promptDict p
       message := "Stability request accepted" }, sk.2)
  | .luma =>
    let jobId := "luma_" ++ toString sk.1
    ({ success := true
       content_url := some ("https://luma-public.example/" ++ jobId ++ ".mp4")
       firebase_url := none
       job_id := some jobId
       model := "luma_dream"
       provider := "luma"
       params := promptDict p
       message := "Luma request accepted" }, sk.2)
  | .googleVeo =>
    let jobId := "veo_" ++ toString sk.1
    ({ success := true
       content_url := some ("https://google-veo-public.example/" ++ jobId ++ ".mp4")
       firebase_url := none
       job_id := some jobId
       model := "google_veo"
       provider := "google_veo"
       params := promptDict p
       message := "Google Veo request accepted" }, sk.2)
  | .openai =>
    let jobId := "oai_" ++ toString sk.1
    ({ success := true
       content_url := some ("https://openai-shorts-public.example/" ++ jobId ++ ".mp4")
       firebase_url := none
       job_id := some jobId
       model := "openai_shorts"
       provider := "openai"
       params := promptDict p
       message := "OpenAI request accepted" }, sk.2)

/-- The `BaseVideoProvider.generate` contract as the orchestrator sees it:
a prompt plus the RNG stream and cursor, yielding one outcome and the
advanced cursor. -/
def ProviderFn : Type :=
  VideoPrompt → (Nat → Int) → Nat → GenerationResult × Nat

/-- `firebase_storage.download_and_store_video` as the orchestrator sees
it: locator, tenant, creative id and iteration to an optional durable URL. -/
def StoreFn : Type := String → String → String → Nat → Option String

/-- `[m.value for m in VideoModel]` (`get_supported_models`). -/
def getSupportedModels : List String :=
  ["runway_gen3", "pika_v2", "stability_svd", "luma_dream", "google_veo",
   "openai_shorts"]

/-- The storage step of one loop iteration (lines 300-316): when the attempt
succeeded with a truthy locator, `download_and_store_video`'s result is
written into `res.firebase_url`; otherwise the outcome passes unchanged. -/
def attachStored (store : StoreFn) (tenant creative : String) (iter : Nat)
    (res : GenerationResult) : GenerationResult :=
  match res.content_url with
  | some url =>
    if res.success && url ≠ "" then
      { res with firebase_url := store url tenant creative iter }
    else res
  | none => res

/-- The variation loop of `VideoGenerationService.generate` (lines 291-318):
`n` iterations remain, `i` is the 0-based index already consumed, `k` the
RNG cursor.  Per iteration: a fresh seed is spliced in only when
`prompt.seed is None`; the provider runs; then the storage step. -/
def runVariations (pgen : ProviderFn) (store : StoreFn) (prompt : VideoPrompt)
    (tenant creative : String) (rng : Nat → Int) :
    Nat → Nat → Nat → List GenerationResult
  | 0, _, _ => []
  | n + 1, i, k =>
    let pk :=
      match prompt.seed with
      | none => ({ prompt with seed := some (rng k) }, k + 1)
      | some _ => (prompt, k)
    let resk := pgen pk.1 rng pk.2
    attachStored store tenant creative (i + 1) resk.1 ::
      runVariations pgen store prompt tenant creative rng n (i + 1) resk.2

/-- One entry of the aggregate response's `results` list (lines 324-333);
the per-attempt `success` flag is not echoed there. -/
structure AggregateItem where
  content_url : Option String
  firebase_url : Option String
  job_id : Option String
  params : Json
  message : String
  deriving DecidableEq

/-- The aggregate response dict of `VideoGenerationService.generate`
(lines 320-335). -/
structure AggregateResult where
  success : Bool
  provider : String
  model : String
  results : List AggregateItem
  supported_models : List String
  deriving DecidableEq

def aggregateItemOf (r : GenerationResult) : AggregateItem :=
  { content_url := r.content_url
    firebase_url := r.firebase_url
    job_id := r.job_id
    params := r.params
    message := r.message }

/-- The body of `VideoGenerationService.generate` once the provider is
resolved: run the variation loop (`range(variations)` is empty for a
non-positive count, hence `Int.toNat`), then assemble the aggregate with
`success = all(r.success for r in results)`. -/
def generateCore (pgen : ProviderFn) (pname : String) (store : StoreFn)
    (model : String) (prompt : VideoPrompt) (tenant creative : String)
    (variations : Int) (rng : Nat → Int) : AggregateResult :=
  let results :=
    runVariations pgen store prompt tenant creative rng variations.toNat 0 0
  { success := results.all (fun r => r.success)
    provider := pname
    model := model
    results := results.map aggregateItemOf
    supported_models := getSupportedModels }

/-- `VideoGenerationService.generate` (lines 279-335): `_select_provider`
then the variation loop and aggregation. -/
def generate (store : StoreFn) (model : String) (prompt : VideoPrompt)
    (tenant creative : String) (variations : Int) (rng : Nat → Int) :
    AggregateResult :=
  generateCore (providerGenerate (selectProvider model))
    (providerName (selectProvider model)) store model prompt tenant creative
    variations rng

/-! ## Storage paths and persistence (firebase_storage.py, s3_storage.py) -/

/-- The components `datetime.utcnow()` exposes to `strftime`. -/
structure DateTime where
  year : Nat
  month : Nat
  day : Nat
  hour : Nat
  minute : Nat
  second : Nat
  deriving DecidableEq

/-- Zero-padding to two digits (`%m`, `%d`, `%H`, `%M`, `%S`). -/
def pad2 (n : Nat) : String :=
  if n < 10 then "0" ++ toString n else toString n

/-- Zero-padding to three digits (Python `f"{i:03d}"` on a non-negative
iteration index). -/
def pad3 (n : Nat) : String :=
  if n < 10 then "00" ++ toString n
  else if n < 100 then "0" ++ toString n
  else toString n

/-- Zero-padding to four digits (`%Y`). -/
def pad4 (n : Nat) : String :=
  if n < 10 then "000" ++ toString n
  else if n < 100 then "00" ++ toString n
  else if n < 1000 then "0" ++ toString n
  else toString n

/-- `datetime.utcnow().strftime("%Y%m%d_%H%M%S")`. -/
def strftimeCompact (dt : DateTime) : String :=
  pad4 dt.year ++ pad2 dt.month ++ pad2 dt.day ++ "_" ++ pad2 dt.hour ++
    pad2 dt.minute ++ pad2 dt.second

/-- `FirebaseVideoStorage._generate_firebase_path` (lines 68-77):
`{prefix}/{tenant_name}/{timestamp}-{creative_id}-{iteration:03d}.mp4`,
with the ambient clock passed in as `now`.  `nsSeg` is the service's
configured path namespace (`self.prefix`, default `"videos"`). -/
def generateFirebasePath (nsSeg tenant creative : String) (now : DateTime)
    (iteration : Nat) : String :=
  let timestamp := strftimeCompact now
  let filename := timestamp ++ "-" ++ creative ++ "-" ++ pad3 iteration ++ ".mp4"
  nsSeg ++ "/" ++ tenant ++ "/" ++ filename

/-- `S3VideoStorage._generate_s3_key` (lines 49-56): the identical format. -/
def generateS3Key (nsSeg tenant creative : String) (now : DateTime)
    (iteration : Nat) : String :=
  let timestamp := strftimeCompact now
  let filename := timestamp ++ "-" ++ creative ++ "-" ++ pad3 iteration ++ ".mp4"
  nsSeg ++ "/" ++ tenant ++ "/" ++ filename

/-- The spec's storage path format, transcribed from its words:
`{namespace}/{tenant}/{YYYYMMDD_HHMMSS}-{creative_id}-{iteration:03d}.{ext}`.
Stated separately from the source-derived path builders so the two can be
compared. -/
def specStoragePath (nsSeg tenant timestamp creative : String) (iteration : Nat)
    (ext : String) : String :=
  nsSeg ++ "/" ++ tenant ++ "/" ++ timestamp ++ "-" ++ creative ++ "-" ++
    pad3 iteration ++ "." ++ ext

/-- The observable outcome of the `httpx` download in
`download_and_store_video`: a transport/HTTP error (the `httpx.HTTPError`
handler) or the response body. -/
inductive DownloadResult where
  | httpError
  | payload (bytes : List Nat)
  deriving DecidableEq

/-- The observable outcome of the blob upload and metadata patch: a
`GoogleCloudError`, or a completed upload together with whether
`blob.make_public()` succeeded. -/
inductive UploadResult where
  | uploadError
  | uploaded (makePublicOk : Bool)
  deriving DecidableEq

/-- `FirebaseVideoStorage.download_and_store_video` (lines 100-215).
`bucketAvailable` is whether `__init__` obtained a bucket; `download`,
`upload`, `publicUrl` and `signedUrl` are the effectful collaborators
(`signedUrl` returns `none` when signing raises, which the outer handlers
turn into a `None` result).  Every exception path of the source returns
`None`; nothing propagates. -/
def downloadAndStoreVideo (bucketAvailable : Bool)
    (download : String → DownloadResult)
    (upload : String → List Nat → UploadResult)
    (publicUrl : String → String) (signedUrl : String → Option String)
    (nsSeg : String) (now : DateTime) (videoUrl tenant creative : String)
    (iteration : Nat) : Option String :=
  if !bucketAvailable then none
  else if videoUrl = "" || strContains videoUrl "example" then none
  else
    let fbPath := generateFirebasePath nsSeg tenant creative now iteration
    match download videoUrl with
    | .httpError => none
    | .payload bytes =>
      if bytes.length = 0 then none
      else
        match upload fbPath bytes with
        | .uploadError => none
        | .uploaded makePublicOk =>
          if makePublicOk then some (publicUrl fbPath) else signedUrl fbPath

instance {α β : Type} [DecidableEq α] [DecidableEq β] : DecidableEq (Except α β) :=
  fun a b =>
    match a, b with
    | .ok x, .ok y =>
      if h : x = y then isTrue (by rw [h]) else
        isFalse (fun c => h (by injection c))
    | .error x, .error y =>
      if h : x = y then isTrue (by rw [h]) else
        isFalse (fun c => h (by injection c))
    | .ok _, .error _ => isFalse (fun c => Except.noConfusion c)
    | .error _, .ok _ => isFalse (fun c => Except.noConfusion c)

/-! ## Helper lemmas -/

theorem attachStored_mk (store : StoreFn) (tenant creative : String) (iter : Nat)
    (res : GenerationResult) :
    (attachStored store tenant creative iter res).success = res.success ∧
    (attachStored store tenant creative iter res).content_url = res.content_url ∧
    (attachStored store tenant creative iter res).job_id = res.job_id := by
  unfold attachStored
  split
  · split <;> simp
  · simp

theorem attachStored_firebase (store : StoreFn) (tenant creative : String)
    (iter : Nat) (res : GenerationResult) (url : String)
    (hs : res.success = true) (hc : res.content_url = some url) (hne : url ≠ "") :
    (attachStored store tenant creative iter res).firebase_url =
      store url tenant creative iter := by
  unfold attachStored
  rw [hc]
  simp [hs, hne]

theorem runVariations_length (pgen : ProviderFn) (store : StoreFn)
    (prompt : VideoPrompt) (tenant creative : String) (rng : Nat → Int) :
    ∀ n i k, (runVariations pgen store prompt tenant creative rng n i k).length = n := by
  intro n
  induction n with
  | zero => intro i k; rfl
  | succ m ih => intro i k; simp [runVariations, ih]

theorem runVariations_persists (pgen : ProviderFn) (store : StoreFn)
    (prompt : VideoPrompt) (tenant creative : String) (rng : Nat → Int) :
    ∀ n i k j r,
      (runVariations pgen store prompt tenant creative rng n i k)[j]? = some r →
      r.success = true → ∀ url, r.content_url = some url → url ≠ "" →
      r.firebase_url = store url tenant creative (i + j + 1) := by
  intro n
  induction n with
  | zero => intro i k j r h; simp [runVariations] at h
  | succ m ih =>
    intro i k j r h hs url hc hne
    simp only [runVariations] at h
    cases j with
    | zero =>
      simp only [List.getElem?_cons_zero, Option.some.injEq] at h
      subst h
      rw [(attachStored_mk _ _ _ _ _).1] at hs
      rw [(attachStored_mk _ _ _ _ _).2.1] at hc
      simpa using attachStored_firebase _ _ _ _ _ url hs hc hne
    | succ jj =>
      simp only [List.getElem?_cons_succ] at h
      have h2 := ih (i + 1) _ jj r h hs url hc hne
      have e : i + 1 + jj + 1 = i + (jj + 1) + 1 := by omega
      rw [e] at h2
      exact h2

/-- Claim C1: one call to `VideoGenerationService.generate` with
`variations = N ≥ 1` produces exactly N outcome entries; the aggregate
`success` flag is true exactly when every attempt succeeded; the aggregate
echoes every attempt; and every successful attempt with a truthy locator
carries its persisted storage result in `firebase_url`, independently of
how the other attempts fared (the provider behavior `pgen` is arbitrary). -/
theorem c1_orchestration_outcomes (pgen : ProviderFn) (pname : String)
    (store : StoreFn) (model : String) (prompt : VideoPrompt)
    (tenant creative : String) (rng : Nat → Int) (N : Nat) (_hN : 1 ≤ N) :
    (generateCore pgen pname store model prompt tenant creative (N : Int) rng).results.length = N ∧
    ((generateCore pgen pname store model prompt tenant creative (N : Int) rng).success = true ↔
      ∀ r ∈ runVariations pgen store prompt tenant creative rng N 0 0,
        r.success = true) ∧
    ((generateCore pgen pname store model prompt tenant creative (N : Int) rng).results =
      (runVariations pgen store prompt tenant creative rng N 0 0).map aggregateItemOf) ∧
    (∀ j r,
      (runVariations pgen store prompt tenant creative rng N 0 0)[j]? = some r →
      r.success = true → ∀ url, r.content_url = some url → url ≠ "" →
      r.firebase_url = store url tenant creative (j + 1)) := by
  have htn : ((N : Int)).toNat = N := by simp
  refine ⟨?_, ?_, ?_, ?_⟩
  · simp [generateCore, htn, runVariations_length]
  · simp [generateCore, htn, List.all_eq_true]
  · simp [generateCore, htn]
  · intro j r h hs url hc hne
    simpa using
      runVariations_persists pgen store prompt tenant creative rng N 0 0 j r h hs url hc hne

theorem c1_orchestration_witness :
    (generateCore (providerGenerate .mock) "mock" (fun _ _ _ _ => some "fb")
        "mock" { prompt := "p", seed := some 5 } "t" "c" ((2 : Nat) : Int)
        (fun _ => 9)).results.length = 2 ∧
    ((runVariations (providerGenerate .mock) (fun _ _ _ _ => some "fb")
        { prompt := "p", seed := some 5 } "t" "c" (fun _ => 9) 2 0 0).map
      (fun r => r.firebase_url)) = [some "fb", some "fb"] := by
  have h := c1_orchestration_outcomes (providerGenerate .mock) "mock"
    (fun _ _ _ _ => some "fb") "mock" { prompt := "p", seed := some 5 } "t" "c"
    (fun _ => 9) 2 (by decide)
  exact ⟨h.1, by rfl⟩

/-- Claim C2: `_select_provider` is a total function on backend-name
strings; every name the `VideoModel` enum rejects (the empty string
included) resolves to the `google_veo` default adapter, and every enum
value resolves to its bound adapter. -/
theorem c2_backend_select_total_default :
    (∀ s : String, videoModelOfString s = none →
      selectProvider s = ProviderId.googleVeo) ∧
    (∀ vm : VideoModel, selectProvider (VideoModel.value vm) = providersMap vm) := by
  constructor
  · intro s h
    simp [selectProvider, h, providersMap]
  · intro vm
    cases vm <;> rfl

theorem c2_backend_select_witness :
    selectProvider "unknown_model" = ProviderId.googleVeo ∧
    selectProvider "" = ProviderId.googleVeo ∧
    selectProvider (VideoModel.value .pikaV2) = providersMap .pikaV2 :=
  ⟨c2_backend_select_total_default.1 "unknown_model" (by decide),
   c2_backend_select_total_default.1 "" (by decide),
   c2_backend_select_total_default.2 .pikaV2⟩

/-- Claim C7: both storage key builders produce exactly the path format
`{namespace}/{tenant}/{YYYYMMDD_HHMMSS}-{creative_id}-{iteration:03d}.{ext}`
(with `ext = mp4`), and for two different tenants the paths built from the
same namespace, creative id, clock reading and iteration never collide. -/
theorem c7_storage_path_format_and_tenant_isolation :
    (∀ (nsSeg t c : String) (now : DateTime) (i : Nat),
      generateFirebasePath nsSeg t c now i =
        specStoragePath nsSeg t (strftimeCompact now) c i "mp4") ∧
    (∀ (nsSeg t c : String) (now : DateTime) (i : Nat),
      generateS3Key nsSeg t c now i =
        specStoragePath nsSeg t (strftimeCompact now) c i "mp4") ∧
    (∀ (nsSeg c : String) (now : DateTime) (i : Nat) (t₁ t₂ : String),
      t₁ ≠ t₂ →
      generateFirebasePath nsSeg t₁ c now i ≠ generateFirebasePath nsSeg t₂ c now i) := by
  have edot : (".mp4" : String).data = ("." : String).data ++ ("mp4" : String).data := by
    decide
  refine ⟨?_, ?_, ?_⟩
  · intro nsSeg t c now i
    apply String.ext
    simp only [generateFirebasePath, specStoragePath, String.data_append, edot,
      List.append_assoc, List.singleton_append, List.cons_append, List.nil_append]
  · intro nsSeg t c now i
    apply String.ext
    simp only [generateS3Key, specStoragePath, String.data_append, edot,
      List.append_assoc, List.singleton_append, List.cons_append, List.nil_append]
  · intro nsSeg c now i t₁ t₂ hne heq
    apply hne
    apply String.ext
    have hd := congrArg String.data heq
    simp only [generateFirebasePath, String.data_append, List.append_assoc] at hd
    have h1 := List.append_cancel_left hd
    have h2 := List.append_cancel_left h1
    have hlen : t₁.data.length = t₂.data.length := by
      have h3 := congrArg List.length h2
      simp only [List.length_append] at h3
      omega
    exact (List.append_inj h2 hlen).1

theorem c7_storage_path_witness :
    generateFirebasePath "videos" "acme" "cr9" ⟨2026, 1, 2, 3, 4, 5⟩ 1 =
      specStoragePath "videos" "acme" (strftimeCompact ⟨2026, 1, 2, 3, 4, 5⟩) "cr9" 1 "mp4" ∧
    generateFirebasePath "videos" "acme" "cr9" ⟨2026, 1, 2, 3, 4, 5⟩ 1 ≠
      generateFirebasePath "videos" "globex" "cr9" ⟨2026, 1, 2, 3, 4, 5⟩ 1 :=
  ⟨c7_storage_path_format_and_tenant_isolation.1 "videos" "acme" "cr9" ⟨2026, 1, 2, 3, 4, 5⟩ 1,
   c7_storage_path_format_and_tenant_isolation.2.2 "videos" "cr9" ⟨2026, 1, 2, 3, 4, 5⟩ 1
     "acme" "globex" (by decide)⟩

/-- Claim C8: `download_and_store_video` returns `None` (and raises
nothing — the embedding is a total function whose every exception handler
in the source returns `None`) for a synthetic/placeholder locator (empty,
or containing "example"), for a failed download, and for a zero-byte
payload; in each of those cases no durable URL is produced. -/
theorem c8_persist_rejects_bad_downloads (bucketAvailable : Bool)
    (download : String → DownloadResult) (upload : String → List Nat → UploadResult)
    (publicUrl : String → String) (signedUrl : String → Option String)
    (nsSeg : String) (now : DateTime) (videoUrl tenant creative : String)
    (iteration : Nat) :
    (videoUrl = "" ∨ strContains videoUrl "example" = true →
      downloadAndStoreVideo bucketAvailable download upload publicUrl signedUrl
        nsSeg now videoUrl tenant creative iteration = none) ∧
    (download videoUrl = .httpError →
      downloadAndStoreVideo bucketAvailable download upload publicUrl signedUrl
        nsSeg now videoUrl tenant creative iteration = none) ∧
    (∀ bytes, download videoUrl = .payload bytes → bytes.length = 0 →
      downloadAndStoreVideo bucketAvailable download upload publicUrl signedUrl
        nsSeg now videoUrl tenant creative iteration = none) := by
  unfold downloadAndStoreVideo
  refine ⟨?_, ?_, ?_⟩
  · intro h
    rcases h with h | h <;> cases bucketAvailable <;> simp [h]
  · intro h
    cases bucketAvailable <;> simp [h]
  · intro bytes hb hlen
    cases bucketAvailable <;> simp [hb, hlen]

theorem c8_persist_witness :
    downloadAndStoreVideo true (fun _ => .payload [1]) (fun _ _ => .uploaded true)
      (fun p => p) (fun p => some p) "videos" ⟨2026, 1, 2, 3, 4, 5⟩
      "https://cdn.example.com/generated/videos/mock_5.mp4" "t" "c" 1 = none ∧
    downloadAndStoreVideo true (fun _ => .httpError) (fun _ _ => .uploaded true)
      (fun p => p) (fun p => some p) "videos" ⟨2026, 1, 2, 3, 4, 5⟩
      "https://files.vendor.net/v.mp4" "t" "c" 1 = none ∧
    downloadAndStoreVideo true (fun _ => .payload []) (fun _ _ => .uploaded true)
      (fun p => p) (fun p => some p) "videos" ⟨2026, 1, 2, 3, 4, 5⟩
      "https://files.vendor.net/v.mp4" "t" "c" 1 = none :=
  ⟨(c8_persist_rejects_bad_downloads true (fun _ => .payload [1])
      (fun _ _ => .uploaded true) (fun p => p) (fun p => some p) "videos"
      ⟨2026, 1, 2, 3, 4, 5⟩ "https://cdn.example.com/generated/videos/mock_5.mp4"
      "t" "c" 1).1 (Or.inr (by decide)),
   (c8_persist_rejects_bad_downloads true (fun _ => .httpError)
      (fun _ _ => .uploaded true) (fun p => p) (fun p => some p) "videos"
      ⟨2026, 1, 2, 3, 4, 5⟩ "https://files.vendor.net/v.mp4" "t" "c" 1).2.1 rfl,
   (c8_persist_rejects_bad_downloads true (fun _ => .payload [])
      (fun _ _ => .uploaded true) (fun p => p) (fun p => some p) "videos"
      ⟨2026, 1, 2, 3, 4, 5⟩ "https://files.vendor.net/v.mp4" "t" "c" 1).2.2 [] rfl rfl⟩

theorem mockRunPinned (s : Int) (hs : s ≠ 0) (p₀ : VideoPrompt)
    (hseed : p₀.seed = some s) (store : StoreFn) (tenant creative : String)
    (rng : Nat → Int) :
    ∀ N i k j, j < N →
      ((runVariations (providerGenerate .mock) store p₀ tenant creative rng N i k)[j]?).map
          (fun r => r.job_id) = some (some ("mock_" ++ toString s)) ∧
      ((runVariations (providerGenerate .mock) store p₀ tenant creative rng N i k)[j]?).map
          (fun r => r.content_url) =
        some (some ("https://cdn.example.com/generated/videos/" ++
          ("mock_" ++ toString s) ++ ".mp4")) := by
  intro N
  induction N with
  | zero => intro i k j hj; omega
  | succ m ih =>
    intro i k j hj
    simp only [runVariations, hseed]
    cases j with
    | zero =>
      constructor
      · simp only [List.getElem?_cons_zero, Option.map_some']
        rw [(attachStored_mk _ _ _ _ _).2.2]
        simp [providerGenerate, pyOrSeed, hseed, hs]
      · simp only [List.getElem?_cons_zero, Option.map_some']
        rw [(attachStored_mk _ _ _ _ _).2.1]
        simp [providerGenerate, pyOrSeed, hseed, hs]
    | succ jj =>
      have hj2 : jj < m := by omega
      simpa [providerGenerate, pyOrSeed, hseed, hs] using ih (i + 1) k jj hj2

theorem mockRunFresh (p₀ : VideoPrompt) (hseed : p₀.seed = none)
    (rng : Nat → Int) (hrng : ∀ m, rng m ≠ 0) (store : StoreFn)
    (tenant creative : String) :
    ∀ N i k j, j < N →
      ((runVariations (providerGenerate .mock) store p₀ tenant creative rng N i k)[j]?).map
          (fun r => r.job_id) = some (some ("mock_" ++ toString (rng (k + j)))) := by
  intro N
  induction N with
  | zero => intro i k j hj; omega
  | succ m ih =>
    intro i k j hj
    simp only [runVariations, hseed]
    cases j with
    | zero =>
      simp only [List.getElem?_cons_zero, Option.map_some']
      rw [(attachStored_mk _ _ _ _ _).2.2]
      simp [providerGenerate, pyOrSeed, hrng k]
    | succ jj =>
      have hj2 : jj < m := by omega
      have h2 := ih (i + 1) (k + 1) jj hj2
      have e : k + 1 + jj = k + (jj + 1) := by omega
      rw [e] at h2
      simpa [providerGenerate, pyOrSeed, hrng k] using h2

/-- Claim C10 (amended): with a pinned seed that is non-null *and nonzero*,
every attempt of one orchestration call against the mock adapter is invoked
with the identical spec and seed, so every outcome carries the same
`mock_{seed}` job id and locator; with a null input seed the orchestrator
draws one fresh random seed per attempt (attempt `j` started at cursor `k`
uses draw `k + j`), which the mock echoes.  (A pinned *zero* seed is falsy
in Python, so `prompt.seed or random.randint(...)` makes the mock draw
fresh seeds — see the counterexample.) -/
theorem c10_pinned_seed_reuse :
    (∀ (s : Int), s ≠ 0 → ∀ (p₀ : VideoPrompt), p₀.seed = some s →
      ∀ (store : StoreFn) (tenant creative : String) (rng : Nat → Int)
        (N i k j : Nat), j < N →
        ((runVariations (providerGenerate .mock) store p₀ tenant creative rng
            N i k)[j]?).map (fun r => r.job_id) =
          some (some ("mock_" ++ toString s)) ∧
        ((runVariations (providerGenerate .mock) store p₀ tenant creative rng
            N i k)[j]?).map (fun r => r.content_url) =
          some (some ("https://cdn.example.com/generated/videos/" ++
            ("mock_" ++ toString s) ++ ".mp4"))) ∧
    (∀ (p₀ : VideoPrompt), p₀.seed = none → ∀ (rng : Nat → Int),
      (∀ m, rng m ≠ 0) → ∀ (store : StoreFn) (tenant creative : String)
        (N i k j : Nat), j < N →
        ((runVariations (providerGenerate .mock) store p₀ tenant creative rng
            N i k)[j]?).map (fun r => r.job_id) =
          some (some ("mock_" ++ toString (rng (k + j))))) :=
  ⟨fun s hs p₀ hseed store tenant creative rng N i k j hj =>
    mockRunPinned s hs p₀ hseed store tenant creative rng N i k j hj,
   fun p₀ hseed rng hrng store tenant creative N i k j hj =>
    mockRunFresh p₀ hseed rng hrng store tenant creative N i k j hj⟩

theorem c10_pinned_seed_witness :
    ((runVariations (providerGenerate .mock) (fun _ _ _ _ => none)
        { prompt := "p", seed := some 5 } "t" "c" (fun _ => 9) 2 0 0)[1]?).map
      (fun r => r.job_id) = some (some "mock_5") ∧
    ((runVariations (providerGenerate .mock) (fun _ _ _ _ => none)
        { prompt := "p" } "t" "c" (fun m => (m : Int) + 3) 2 0 0)[1]?).map
      (fun r => r.job_id) = some (some "mock_4") := by
  constructor
  · have h := (c10_pinned_seed_reuse.1 5 (by decide)
      { prompt := "p", seed := some 5 } rfl (fun _ _ _ _ => none) "t" "c"
      (fun _ => 9) 2 0 0 1 (by decide)).1
    exact h.trans (by decide)
  · have h := c10_pinned_seed_reuse.2 { prompt := "p" } rfl
      (fun m => (m : Int) + 3) (by intro m; show (m : Int) + 3 ≠ 0; omega)
      (fun _ _ _ _ => none) "t" "c" 2 0 0 1 (by decide)
    exact h.trans (by decide)

/-- Claim C10 counterexample: a pinned seed of `0` is non-null, yet the two
mock attempts return *different* job ids (`prompt.seed or random.randint`
treats `0` as unset), refuting the claim that every non-null pinned seed
yields N identical `mock_{seed}` outcomes. -/
theorem c10_counterexample_zero_seed :
    ((runVariations (providerGenerate .mock) (fun _ _ _ _ => none)
        { prompt := "p", seed := some 0 } "t" "c" (fun m => (m : Int) + 1)
        2 0 0).map (fun r => r.job_id)) = [some "mock_1", some "mock_2"] ∧
    ("mock_1" : String) ≠ "mock_2" := by
  exact ⟨rfl, by decide⟩

/-- Claim C3 counterexample: a refine reply that specifies only `mood`
should, per the claim, leave the prior pinned seed `7` in place; the code's
constructor omits `seed`, so the result's seed is the dataclass default
`None`, not `some 7`. -/
theorem c3_counterexample_seed_reset :
    regenerateWithFeedback true { prompt := "p", seed := some 7 } "add warmth"
        (.parsed [("mood", .jstr "calm")]) ≠
      .ok { prompt := "p", mood := "calm", seed := some 7 } := by
  decide

/-- Claim C3 (amended): on the model path, a refine reply that specifies
only `mood` yields the prior spec with that mood and with `seed` reset to
`None` — every other field keeps the prior value; the no-model heuristic
path (a dict-splat copy) preserves every field including the seed, only
adjusting mood/style on feedback keywords. -/
theorem c3_regenerate_field_merge :
    (∀ (prior : VideoPrompt) (fb v : String),
      regenerateWithFeedback true prior fb (.parsed [("mood", .jstr v)]) =
        .ok { prior with mood := v, seed := none }) ∧
    (∀ (prior : VideoPrompt) (fb : String) (reply : LLMReply),
      regenerateWithFeedback false prior fb reply =
        .ok (regenerateHeuristic prior fb)) ∧
    (∀ (prior : VideoPrompt) (fb : String),
      (regenerateHeuristic prior fb).seed = prior.seed ∧
      (regenerateHeuristic prior fb).duration_seconds = prior.duration_seconds ∧
      (regenerateHeuristic prior fb).aspect_ratio = prior.aspect_ratio ∧
      (regenerateHeuristic prior fb).resolution = prior.resolution ∧
      (regenerateHeuristic prior fb).fps = prior.fps ∧
      (regenerateHeuristic prior fb).prompt = prior.prompt) := by
  refine ⟨?_, ?_, ?_⟩
  · intro prior fb v
    rfl
  · intro prior fb reply
    rfl
  · intro prior fb
    exact ⟨rfl, rfl, rfl, rfl, rfl, rfl⟩

/-- Claim C4 counterexample: a request with `variations = 0` is not
rejected; `VideoGenerationService.generate` returns a normal aggregate
result with an empty outcome list whose `success` flag is (vacuously)
true — no `ValidationError` exists anywhere on the path. -/
theorem c4_counterexample_zero_variations :
    (generate (fun _ _ _ _ => none) "mock" { prompt := "p" } "t" "c" 0
        (fun _ => 1)).results = [] ∧
    (generate (fun _ _ _ _ => none) "mock" { prompt := "p" } "t" "c" 0
        (fun _ => 1)).success = true := by
  exact ⟨rfl, rfl⟩

/-- Claim C4 (amended): neither `CreativeService._generate_video` nor
`VideoGenerationService.generate` validates the variation count; for any
`variation_count ≤ 0` the loop body never runs and the call returns a
normal aggregate result with zero outcome entries and `success = true`
(Python's `all([])`), surfacing no error. -/
theorem c4_nonpositive_variations_vacuous (store : StoreFn) (model : String)
    (prompt : VideoPrompt) (tenant creative : String) (rng : Nat → Int)
    (v : Int) (hv : v ≤ 0) :
    (generate store model prompt tenant creative v rng).results = [] ∧
    (generate store model prompt tenant creative v rng).success = true := by
  have h0 : v.toNat = 0 := Int.toNat_of_nonpos hv
  constructor <;> simp [generate, generateCore, h0, runVariations]

theorem c4_nonpositive_variations_witness :
    (generate (fun _ _ _ _ => none) "pika_v2" { prompt := "p" } "t" "c" (-3)
        (fun _ => 1)).results = [] :=
  (c4_nonpositive_variations_vacuous (fun _ _ _ _ => none) "pika_v2"
    { prompt := "p" } "t" "c" (fun _ => 1) (-3) (by decide)).1

/-- Claim C5 counterexample: an empty `user_prompt` does not fail
validation anywhere — `_generate_video` replaces the falsy parameter with
the default brief `"Brand hero video ad"` and quantification proceeds,
producing a `GenerationSpec`; calling `quantify` directly with the empty
string likewise produces a spec whose prompt is empty. -/
theorem c5_counterexample_empty_prompt :
    quantify false (resolveUserPrompt (some "") none) "ctx" [] =
      some (.ok (heuristicQuantify "Brand hero video ad" "ctx")) ∧
    quantify false "" "ctx" [] = some (.ok (heuristicQuantify "" "ctx")) ∧
    (heuristicQuantify "" "ctx").prompt = "" := by
  exact ⟨rfl, rfl, rfl⟩

/-- Claim C5 (amended): there is no empty-prompt validation: the request
layer substitutes the default brief `"Brand hero video ad"` for a missing
or empty prompt parameter, and `quantify` accepts any prompt text —
including the empty string — returning a spec that carries it verbatim. -/
theorem c5_empty_prompt_not_validated :
    resolveUserPrompt (some "") none = "Brand hero video ad" ∧
    resolveUserPrompt none none = "Brand hero video ad" ∧
    resolveUserPrompt (some "") (some "") = "Brand hero video ad" ∧
    (∀ ctx : String, quantify false "" ctx [] =
      some (.ok (heuristicQuantify "" ctx))) ∧
    (∀ up ctx : String, (heuristicQuantify up ctx).prompt = up) := by
  exact ⟨rfl, rfl, rfl, fun ctx => rfl, fun up ctx => rfl⟩

/-- Claim C6 counterexample: with no language model configured, quantifying
a plain prompt yields a spec whose `subtitles` flag is **true** (the
heuristic branch hardcodes `subtitles=True`), refuting the claimed
`subtitles=false` default on the fallback path. -/
theorem c6_counterexample_heuristic_subtitles :
    quantify false "A vibrant product showcase with upbeat music" "campaign" [] =
      some (.ok (heuristicQuantify "A vibrant product showcase with upbeat music"
        "campaign")) ∧
    (heuristicQuantify "A vibrant product showcase with upbeat music"
        "campaign").subtitles = true := by
  exact ⟨rfl, rfl⟩

/-- Claim C6 (amended): with no model, `quantify` never fails and returns
the heuristic spec — duration 10, resolution 1080p, fps 24, mood uplifting,
`subtitles = true`, with aspect ratio *and* style *and* camera all keyed on
the platform keyword ("tiktok" implies 9:16 / "dynamic social-first" /
"handheld energy"); with a model, every field missing from the parsed
output is filled with the documented defaults (`subtitles = false` there);
an unparseable model reply makes `quantify` retry the model call rather
than fall back to the heuristic. -/
theorem c6_quantify_fallback_and_defaults :
    (∀ (up ctx : String) (replies : List LLMReply),
      quantify false up ctx replies = some (.ok (heuristicQuantify up ctx))) ∧
    (∀ up ctx : String,
      (heuristicQuantify up ctx).duration_seconds = 10 ∧
      (heuristicQuantify up ctx).resolution = "1080p" ∧
      (heuristicQuantify up ctx).fps = 24 ∧
      (heuristicQuantify up ctx).mood = "uplifting" ∧
      (heuristicQuantify up ctx).subtitles = true ∧
      (heuristicQuantify up ctx).aspect_ratio =
        (if strContains (lowerStr ctx) "tiktok" then "9:16" else "16:9") ∧
      (heuristicQuantify up ctx).style =
        (if strContains (lowerStr ctx) "tiktok" then "dynamic social-first"
         else "cinematic") ∧
      (heuristicQuantify up ctx).camera =
        (if strContains (lowerStr ctx) "tiktok" then "handheld energy"
         else "smooth dolly-in")) ∧
    (∀ up : String, quantifyFromData up [] = .ok
      { prompt := up, duration_seconds := 10, aspect_ratio := "16:9",
        resolution := "1080p", fps := 24, style := "cinematic",
        mood := "uplifting", camera := "smooth dolly-in",
        color_palette := none, music := none, voiceover_script := none,
        text_overlays := none, subtitles := false, brand_colors := none,
        seed := none }) ∧
    (∀ (up ctx : String) (rest : List LLMReply),
      quantify true up ctx (.malformed :: rest) = quantify true up ctx rest) := by
  refine ⟨?_, ?_, ?_, ?_⟩
  · intro up ctx replies
    cases replies with
    | nil => rfl
    | cons r rest => cases r <;> rfl
  · intro up ctx
    exact ⟨rfl, rfl, rfl, rfl, rfl, rfl, rfl, rfl⟩
  · intro up
    rfl
  · intro up ctx rest
    rfl

/-- Claim C9 counterexample: a parsed model reply with
`duration_seconds = 0` flows through `quantify` unclamped — the produced
spec's duration is 0, violating the claimed `duration > 0` (and 5–60)
invariant. -/
theorem c9_counterexample_unbounded_duration :
    quantify true "p" "ctx" [.parsed [("duration_seconds", .jint 0)]] =
      some (.ok { prompt := "p", duration_seconds := 0 }) ∧
    ¬(0 < ({ prompt := "p", duration_seconds := 0 } : VideoPrompt).duration_seconds) := by
  exact ⟨rfl, by decide⟩

/-- Claim C9 (amended): the duration bound holds on every path that does
not take a model-supplied duration: the heuristic quantifier always emits
duration 10 (within 5–60), the heuristic regeneration preserves the prior
duration, and both model-merge paths fall back to 10 resp. the prior value
whenever the reply omits `duration_seconds`; a model-supplied duration is
used as-is, with no bounds check (see the counterexample). -/
theorem c9_duration_bound_partial :
    (∀ up ctx : String, 0 < (heuristicQuantify up ctx).duration_seconds ∧
      5 ≤ (heuristicQuantify up ctx).duration_seconds ∧
      (heuristicQuantify up ctx).duration_seconds ≤ 60) ∧
    (∀ (prior : VideoPrompt) (fb : String),
      (regenerateHeuristic prior fb).duration_seconds = prior.duration_seconds) ∧
    (∀ (up : String) (data : Json) (spec : VideoPrompt),
      jGet data "duration_seconds" = none →
      quantifyFromData up data = .ok spec → spec.duration_seconds = 10) ∧
    (∀ (prior : VideoPrompt) (data : Json) (spec : VideoPrompt),
      jGet data "duration_seconds" = none →
      regenerateFromData prior data = .ok spec →
      spec.duration_seconds = prior.duration_seconds) := by
  refine ⟨?_, ?_, ?_, ?_⟩
  · intro up ctx
    refine ⟨?_, ?_, ?_⟩ <;> norm_num [heuristicQuantify]
  · intro prior fb
    rfl
  · intro up data spec hk h
    have hd : getInt data "duration_seconds" 10 = .ok 10 := by simp [getInt, hk]
    unfold quantifyFromData at h
    rw [hd] at h
    rcases hf : getInt data "fps" 24 with e | f <;> rw [hf] at h <;> simp at h
    rw [← h]
  · intro prior data spec hk h
    have hd : getInt data "duration_seconds" prior.duration_seconds =
        .ok prior.duration_seconds := by simp [getInt, hk]
    unfold regenerateFromData at h
    rw [hd] at h
    rcases hf : getInt data "fps" prior.fps with e | f <;> rw [hf] at h <;> simp at h
    rw [← h]

theorem c9_duration_bound_witness :
    ({ prompt := "p", duration_seconds := 10, aspect_ratio := "16:9",
       resolution := "1080p", fps := 24, style := "cinematic",
       mood := "uplifting", camera := "smooth dolly-in", color_palette := none,
       music := none, voiceover_script := none, text_overlays := none,
       subtitles := false, brand_colors := none,
       seed := none } : VideoPrompt).duration_seconds = 10 ∧
    ({ prompt := "q", duration_seconds := 42 } : VideoPrompt).duration_seconds =
      ({ prompt := "q", duration_seconds := 42 } : VideoPrompt).duration_seconds ∧
    (5 : Int) ≤ (heuristicQuantify "p" "ctx").duration_seconds := by
  have h := c9_duration_bound_partial
  exact ⟨h.2.2.1 "p" [] _ rfl rfl,
    h.2.2.2 { prompt := "q", duration_seconds := 42 } [] _ rfl rfl,
    (h.1 "p" "ctx").2.1⟩
